import Mathlib

/-!
Shallow embedding of the Trading-AI article pipeline core
(src/models/models.py, src/pipelines/article_pipeline_controller.py,
src/services/database/article_service.py, src/services/llm/gemini_service.py),
together with theorems settling the specification claims about it.

Modelling conventions:
- Pydantic `Optional[T]` fields become `Option`; required `str` fields become `String`.
- Python `float` values are carried as Lean `Float`; the embedding never computes
  with them, it only moves them around, as the source does.
- Python dicts with string keys become insertion-ordered association lists
  `List (String × β)`; assignment to an existing key replaces in place, a new
  key is appended, matching CPython dict semantics.
- Mongo ObjectIds become `Nat` (the only property used is a fresh strictly
  increasing identity per insert).
- Concurrency: each thread-pool task is an independent pure result collected by
  the coordinator; the embedding folds over the results in completion order
  (an arbitrary list order, universally quantified in the theorems).
- An adapter call that may raise is embedded as `Except Unit` / `Option`.
-/

/-- Article model (src/models/models.py lines 6-51): a news item keyed by `url`,
created by a scraper with the first six fields, with all enrichment fields
optional and absent until enrichment.  Note the model declares neither an `id`
nor an `_id` field. -/
structure Article where
  url : String
  title : String
  content : String
  publish_date : Option String := none
  authors : Option (List String) := none
  summary : Option String := none
  summary_short : Option String := none
  summary_bullets : Option (List String) := none
  summary_extended : Option String := none
  event_type : Option String := none
  event_type_reasoning : Option String := none
  importance_score : Option Float := none
  importance_reasoning : Option String := none
  sentiment : Option String := none
  sentiment_score : Option Float := none
  sentiment_reasoning : Option String := none
  ticker_sentiments : Option (List (String × Float)) := none
  ticker_sentiment_reasoning : Option (List (String × String)) := none
  tickers : Option (List String) := none
  primary_ticker : Option String := none
  primary_ticker_reasoning : Option String := none
  sectors : Option (List String) := none
  sector_reasoning : Option String := none
  industry : Option (List String) := none
  industry_reasoning : Option String := none
  keywords : Option (List String) := none
  keyword_map : Option (List (String × List String)) := none
  keyword_reasoning : Option String := none
  entities : Option (List String) := none
  market_session : Option String := none
  market_session_reasoning : Option String := none
  source : Option String := none

/-- TickerSentiment (src/models/models.py lines 59-62): `ticker` and `score` are
required fields, `reasoning` is optional. -/
structure TickerSentiment where
  ticker : String
  score : Float
  reasoning : Option String := none

/-- KeywordGroup (src/models/models.py lines 65-67): `category` is required,
`items` defaults to the empty list. -/
structure KeywordGroup where
  category : String
  items : List String := []

/-- LlmSummary (src/models/models.py lines 70-107): the structured enrichment
result returned by the LLM adapter; every field is optional. -/
structure LlmSummary where
  summary_short : Option String := none
  summary_bullets : Option (List String) := none
  summary_extended : Option String := none
  event_type : Option String := none
  event_type_reasoning : Option String := none
  importance_score : Option Float := none
  importance_reasoning : Option String := none
  sentiment : Option String := none
  sentiment_score : Option Float := none
  sentiment_reasoning : Option String := none
  tickers : Option (List String) := none
  primary_ticker : Option String := none
  primary_ticker_reasoning : Option String := none
  sectors : Option (List String) := none
  sector_reasoning : Option String := none
  industry : Option (List String) := none
  industry_reasoning : Option String := none
  keywords : Option (List String) := none
  keyword_groups : Option (List KeywordGroup) := none
  keyword_reasoning : Option String := none
  entities : Option (List String) := none
  market_session : Option String := none
  market_session_reasoning : Option String := none
  source : Option String := none
  ticker_sentiment_items : Option (List TickerSentiment) := none

/-- LlmFields: the dict returned by `GeminiService.to_article_fields`
(src/services/llm/gemini_service.py lines 90-122).  Its key set is fixed: it is
`llm.model_dump()` minus the popped keys `ticker_sentiment_items` and
`keyword_groups`, plus the computed keys `ticker_sentiments`,
`ticker_sentiment_reasoning` and `keyword_map`.  Every key is present in the
dict even when its value is None. -/
structure LlmFields where
  summary_short : Option String := none
  summary_bullets : Option (List String) := none
  summary_extended : Option String := none
  event_type : Option String := none
  event_type_reasoning : Option String := none
  importance_score : Option Float := none
  importance_reasoning : Option String := none
  sentiment : Option String := none
  sentiment_score : Option Float := none
  sentiment_reasoning : Option String := none
  tickers : Option (List String) := none
  primary_ticker : Option String := none
  primary_ticker_reasoning : Option String := none
  sectors : Option (List String) := none
  sector_reasoning : Option String := none
  industry : Option (List String) := none
  industry_reasoning : Option String := none
  keywords : Option (List String) := none
  keyword_reasoning : Option String := none
  entities : Option (List String) := none
  market_session : Option String := none
  market_session_reasoning : Option String := none
  source : Option String := none
  ticker_sentiments : Option (List (String × Float)) := none
  ticker_sentiment_reasoning : Option (List (String × String)) := none
  keyword_map : Option (List (String × List String)) := none

/-- Python dict assignment `d[k] = v` on an insertion-ordered dict: replace the
value in place when the key exists, otherwise append the new binding. -/
def dictInsert {β : Type} (l : List (String × β)) (k : String) (v : β) : List (String × β) :=
  if l.any (fun p => p.1 == k) then
    l.map (fun p => if p.1 == k then (k, v) else p)
  else l ++ [(k, v)]

/-- Accumulator step for the `for it in items` loop of `to_article_fields`
(gemini_service.py lines 98-107): uppercase and strip the ticker, skip it when
empty, record the score (scores are floats after pydantic validation, so the
isinstance check passes), and record the reasoning when it is truthy. -/
def tickerItemStep (acc : List (String × Float) × List (String × String))
    (it : TickerSentiment) : List (String × Float) × List (String × String) :=
  let t := it.ticker.toUpper.trim
  if t = "" then acc
  else
    let ts := dictInsert acc.1 t it.score
    let tr := match it.reasoning with
      | some r => if r = "" then acc.2 else dictInsert acc.2 t r
      | none => acc.2
    (ts, tr)

/-- Accumulator step for the `for g in groups` loop of `to_article_fields`
(gemini_service.py lines 115-119): strip the category, skip it when empty,
otherwise assign the group's items under the category key. -/
def keywordGroupStep (m : List (String × List String)) (g : KeywordGroup) :
    List (String × List String) :=
  let cat := g.category.trim
  if cat = "" then m else dictInsert m cat g.items

/-- GeminiService.to_article_fields (src/services/llm/gemini_service.py lines
90-122): dump the LlmSummary (None values included), convert
`ticker_sentiment_items` into the two ticker dicts and `keyword_groups` into
`keyword_map`, mapping an empty dict to None (`ticker_sentiments or None`). -/
def to_article_fields (llm : LlmSummary) : LlmFields :=
  let items := llm.ticker_sentiment_items.getD []
  let ticker := items.foldl tickerItemStep ([], [])
  let groups := llm.keyword_groups.getD []
  let km := groups.foldl keywordGroupStep []
  { summary_short := llm.summary_short
    summary_bullets := llm.summary_bullets
    summary_extended := llm.summary_extended
    event_type := llm.event_type
    event_type_reasoning := llm.event_type_reasoning
    importance_score := llm.importance_score
    importance_reasoning := llm.importance_reasoning
    sentiment := llm.sentiment
    sentiment_score := llm.sentiment_score
    sentiment_reasoning := llm.sentiment_reasoning
    tickers := llm.tickers
    primary_ticker := llm.primary_ticker
    primary_ticker_reasoning := llm.primary_ticker_reasoning
    sectors := llm.sectors
    sector_reasoning := llm.sector_reasoning
    industry := llm.industry
    industry_reasoning := llm.industry_reasoning
    keywords := llm.keywords
    keyword_reasoning := llm.keyword_reasoning
    entities := llm.entities
    market_session := llm.market_session
    market_session_reasoning := llm.market_session_reasoning
    source := llm.source
    ticker_sentiments := if ticker.1.isEmpty then none else some ticker.1
    ticker_sentiment_reasoning := if ticker.2.isEmpty then none else some ticker.2
    keyword_map := if km.isEmpty then none else some km }

/-- Pydantic `article.model_copy(update=llm_fields)` as used in `_process_one`
(src/pipelines/article_pipeline_controller.py line 96): every key present in
the update dict is assigned onto the copy, None values included.  Since the
key set of `to_article_fields`' dict is fixed, exactly the six fields that are
not keys of the dict (url, title, content, publish_date, authors, summary) keep
the article's value, and every other field is taken from the update. -/
def model_copy_update (a : Article) (u : LlmFields) : Article :=
  { url := a.url
    title := a.title
    content := a.content
    publish_date := a.publish_date
    authors := a.authors
    summary := a.summary
    summary_short := u.summary_short
    summary_bullets := u.summary_bullets
    summary_extended := u.summary_extended
    event_type := u.event_type
    event_type_reasoning := u.event_type_reasoning
    importance_score := u.importance_score
    importance_reasoning := u.importance_reasoning
    sentiment := u.sentiment
    sentiment_score := u.sentiment_score
    sentiment_reasoning := u.sentiment_reasoning
    ticker_sentiments := u.ticker_sentiments
    ticker_sentiment_reasoning := u.ticker_sentiment_reasoning
    tickers := u.tickers
    primary_ticker := u.primary_ticker
    primary_ticker_reasoning := u.primary_ticker_reasoning
    sectors := u.sectors
    sector_reasoning := u.sector_reasoning
    industry := u.industry
    industry_reasoning := u.industry_reasoning
    keywords := u.keywords
    keyword_map := u.keyword_map
    keyword_reasoning := u.keyword_reasoning
    entities := u.entities
    market_session := u.market_session
    market_session_reasoning := u.market_session_reasoning
    source := u.source }

/-- ArticlePipelineController._process_one (article_pipeline_controller.py lines
86-101): run the enrichment adapter (whose failure or falsy result is `none`;
when present, the dict has its full fixed key set so it is never falsy) and
merge its fields into the article; any raised exception is caught and mapped to
None as well, so the function never raises. -/
def process_one (summarize_article : Article → Option LlmFields) (a : Article) :
    Option Article :=
  match summarize_article a with
  | none => none
  | some fields => some (model_copy_update a fields)

/-- Sort key of the fetch coordinator (article_pipeline_controller.py line 80):
`article.publish_date or ""`, i.e. the empty-string low key replaces a missing
(or empty) timestamp. -/
def articleSortKey (a : Article) : String :=
  a.publish_date.getD ""

/-- Comparator embedding Python's `sorted(articles, key=..., reverse=True)`:
a stable sort that keeps `a` before `b` exactly when `key b <= key a`. -/
def articleDescLe (a b : Article) : Bool :=
  decide (articleSortKey b ≤ articleSortKey a)

/-- Final sort of fetch_latest_news_articles (article_pipeline_controller.py
line 80): stable sort, descending by publish-date key. -/
def sortArticles (l : List Article) : List Article :=
  l.mergeSort articleDescLe

/-- Accumulator step of the `as_completed` loop in concurrent mode
(article_pipeline_controller.py lines 71-78): a finished task's articles are
appended when the result is truthy, a raised exception is caught and logged. -/
def collectAsyncStep (acc : List Article) (r : Except Unit (List Article)) :
    List Article :=
  match r with
  | Except.ok l => if l.isEmpty then acc else acc ++ l
  | Except.error _ => acc

/-- Concurrent-mode collection of scraper results, folded in task-completion
order (the `results` list is the per-adapter outcomes in whatever order
`as_completed` yields them). -/
def collectAsync (results : List (Except Unit (List Article))) : List Article :=
  results.foldl collectAsyncStep []

/-- Sequential-mode collection (article_pipeline_controller.py lines 65-67):
`articles.extend(s.scrape())` for each adapter in order, with no exception
handling, so the first adapter error propagates out of the loop. -/
def collectSeq : List (Except Unit (List Article)) → Except Unit (List Article)
  | [] => Except.ok []
  | r :: rest =>
    match r with
    | Except.error e => Except.error e
    | Except.ok l => (collectSeq rest).map (fun tail => l ++ tail)

/-- ArticlePipelineController.fetch_latest_news_articles
(article_pipeline_controller.py lines 63-81), parameterised by the execution
mode and by the list of per-adapter scrape outcomes. -/
def fetch_latest_news_articles (asynchronous : Bool)
    (results : List (Except Unit (List Article))) : Except Unit (List Article) :=
  match (if asynchronous then Except.ok (collectAsync results) else collectSeq results) with
  | Except.ok articles => Except.ok (sortArticles articles)
  | Except.error e => Except.error e

/-- StoredDoc: the document built by `insert_many_articles`
(src/services/database/article_service.py lines 146-149):
`article.model_dump(exclude_none=True)` plus a `created_at` timestamp and,
when truthy, the `pipeline_run_id`.  The serialized article content is carried
as the Article record itself; `exclude_none` only drops absent keys from the
wire format and is irrelevant to the claims. -/
structure StoredDoc where
  article : Article
  created_at : Nat
  pipeline_run_id : Option Nat := none

/-- DbState: the `articles` Mongo collection with its unique index on `url`
(article_service.py line 22).  Documents are kept in insertion order as
url-keyed bindings; `next_id` generates the fresh ObjectId for an upserted
document. -/
structure DbState where
  docs : List (String × StoredDoc) := []
  next_id : Nat := 0

/-- InsertResult: the summary dict returned by `insert_many_articles`
(article_service.py lines 171-176). -/
structure InsertResult where
  inserted_count : Nat
  existing_count : Nat
  total_unique_urls : Nat
  inserted_ids : List (String × Nat)

/-- Document construction for one article of the batch (article_service.py
lines 146-150). -/
def mkDoc (a : Article) (now : Nat) (pipeline_run_id : Option Nat) : StoredDoc :=
  { article := a, created_at := now, pipeline_run_id := pipeline_run_id }

/-- Body of the `for article in articles` loop of `insert_many_articles`
(article_service.py lines 141-150): skip the article when its url is already a
key of the batch dict, otherwise add its document under its url. -/
def build_batch_step (now : Nat) (pipeline_run_id : Option Nat)
    (acc : List (String × StoredDoc)) (a : Article) : List (String × StoredDoc) :=
  if (acc.lookup a.url).isSome then acc
  else acc ++ [(a.url, mkDoc a now pipeline_run_id)]

/-- The `articles_batch` dict of `insert_many_articles` (article_service.py
lines 138-150): url-keyed, first occurrence wins. -/
def build_batch (articles : List Article) (now : Nat) (pipeline_run_id : Option Nat) :
    List (String × StoredDoc) :=
  articles.foldl (build_batch_step now pipeline_run_id) []

/-- Accumulator of the bulk write (article_service.py lines 154-168): the
evolving collection, Mongo's `upserted_count`, and `upserted_ids` keyed back to
the batch urls. -/
structure BulkAcc where
  db : DbState
  upserted_count : Nat
  inserted_ids : List (String × Nat)

/-- One `UpdateOne({"url": url}, {"$setOnInsert": doc}, upsert=True)` operation
(article_service.py line 157): when a document with the url exists the write is
a no-op (existing documents are never modified), otherwise the document is
inserted with a fresh id and counted as upserted. -/
def applyOp (acc : BulkAcc) (op : String × StoredDoc) : BulkAcc :=
  if (acc.db.docs.lookup op.1).isSome then acc
  else
    { db := { docs := acc.db.docs ++ [(op.1, op.2)], next_id := acc.db.next_id + 1 }
      upserted_count := acc.upserted_count + 1
      inserted_ids := acc.inserted_ids ++ [(op.1, acc.db.next_id)] }

/-- ArticleService.insert_many_articles (article_service.py lines 137-176):
deduplicate the batch by url (first occurrence wins), bulk-write one
insert-if-absent operation per unique url, and report
`inserted_count = upserted_count`, `existing_count = total_unique - inserted`. -/
def insert_many_articles (db : DbState) (articles : List Article) (now : Nat)
    (pipeline_run_id : Option Nat) : DbState × InsertResult :=
  let batch := build_batch articles now pipeline_run_id
  let total_unique := batch.length
  let res := batch.foldl applyOp { db := db, upserted_count := 0, inserted_ids := [] }
  (res.db,
   { inserted_count := res.upserted_count
     existing_count := total_unique - res.upserted_count
     total_unique_urls := total_unique
     inserted_ids := res.inserted_ids })

/-- ArticleService.get_articles_batch (article_service.py lines 48-89) on the
forward path used by backfill (default ascending scan, no extra filter): select
the documents with `_id` greater than the cursor, sort ascending by `_id`, take
`limit` of them, and parse each document as `Article(**doc)` — which drops the
Mongo `_id`, because the pydantic Article model has no such field and ignores
unknown keys.  The store is the collection as a list of (id, article) pairs. -/
def get_articles_batch (store : List (Nat × Article)) (limit : Nat)
    (last_id : Option Nat) : List Article :=
  let filtered := match last_id with
    | none => store
    | some l => store.filter (fun d => decide (l < d.1))
  ((filtered.mergeSort (fun x y => decide (x.1 ≤ y.1))).take limit).map (fun d => d.2)

/-- Cursor advance of backfill_articles (article_pipeline_controller.py line
141): `getattr(batch[-1], "id", None) or getattr(batch[-1], "_id", None) or
None`.  The pydantic Article model (models.py lines 6-51) declares neither an
`id` nor an `_id` attribute, and `Article(**doc)` silently drops the Mongo
`_id`, so both getattr calls return the None default and the new cursor is
always None, whatever the page contained. -/
def advance_cursor (batch : List Article) : Option Nat :=
  none

/-- Aggregate counters of backfill_articles (article_pipeline_controller.py
lines 119-121). -/
structure Totals where
  processed : Nat := 0
  updated : Nat := 0
  failed : Nat := 0

/-- Body of the `as_completed` loop over one page's enrichment futures
(article_pipeline_controller.py lines 148-163).  `_process_one` catches every
exception and returns None for it, so `fut.result()` never raises and the
`except` branch of the loop (which would count a failure without counting it as
processed) is unreachable: each settled future increments `processed`, then
either `failed` (None result, article dropped) or `updated` (article appended
to the page's output batch). -/
def process_page_step (summarize_article : Article → Option LlmFields)
    (acc : List Article × Totals) (a : Article) : List Article × Totals :=
  match process_one summarize_article a with
  | none =>
    (acc.1, { acc.2 with processed := acc.2.processed + 1, failed := acc.2.failed + 1 })
  | some upd =>
    (acc.1 ++ [upd], { acc.2 with processed := acc.2.processed + 1, updated := acc.2.updated + 1 })

/-- Enrichment of one page of articles with the running totals
(article_pipeline_controller.py lines 144-163), folded in task-completion
order. -/
def process_page (summarize_article : Article → Option LlmFields)
    (batch : List Article) (t : Totals) : List Article × Totals :=
  batch.foldl (process_page_step summarize_article) ([], t)

/-- Modelled from the spec: `upsert_many_articles` is called by
backfill_articles (article_pipeline_controller.py line 168) but no such method
is defined in src/services/database; §6 of the spec specifies
`upsert_many(articles)` with "overwrite semantics for backfill" keyed on url,
so the stored document with a matching url is overwritten in place, keeping its
identity. -/
def upsert_many_articles (store : List (Nat × Article)) (articles : List Article) :
    List (Nat × Article) :=
  articles.foldl
    (fun st a => st.map (fun d => if d.2.url == a.url then (d.1, a) else d)) store

/-- Cap test at the top of the backfill loop (article_pipeline_controller.py
lines 128-129): `limit_total is not None and processed_total >= limit_total`. -/
def capReached (limit_total : Option Nat) (processed : Nat) : Bool :=
  match limit_total with
  | none => false
  | some l => decide (l ≤ processed)

/-- Mutable state of the backfill loop: the store (the loop re-reads it after
its own upserts), the running totals, and the cursor. -/
structure BackfillState where
  store : List (Nat × Article)
  totals : Totals
  last_id : Option Nat

/-- The `while True` loop of backfill_articles (article_pipeline_controller.py
lines 127-172), instrumented with fuel: `some result` means the loop exited
(empty page or cap reached) within `fuel` iterations and `none` means it was
still running after `fuel` iterations.  Each iteration reads a page, advances
the cursor to `advance_cursor batch`, enriches the page, and upserts the
non-empty enriched batch. -/
def backfill_loop (summarize_article : Article → Option LlmFields)
    (batch_size : Nat) (limit_total : Option Nat) :
    Nat → BackfillState → Option (Totals × List (Nat × Article))
  | 0, _ => none
  | fuel + 1, s =>
    if capReached limit_total s.totals.processed then some (s.totals, s.store)
    else
      let batch := get_articles_batch s.store batch_size s.last_id
      if batch.isEmpty then some (s.totals, s.store)
      else
        let nextCursor := advance_cursor batch
        let page := process_page summarize_article batch s.totals
        let store' := if page.1.isEmpty then s.store else upsert_many_articles s.store page.1
        backfill_loop summarize_article batch_size limit_total fuel
          { store := store', totals := page.2, last_id := nextCursor }

/-- ArticlePipelineController.backfill_articles (article_pipeline_controller.py
lines 103-178) on a given store, starting from a None cursor and zero totals. -/
def backfill_articles (summarize_article : Article → Option LlmFields)
    (store : List (Nat × Article)) (batch_size : Nat) (limit_total : Option Nat)
    (fuel : Nat) : Option (Totals × List (Nat × Article)) :=
  backfill_loop summarize_article batch_size limit_total fuel
    { store := store, totals := {}, last_id := none }

/-- Successful scrape results among a list of per-adapter outcomes. -/
def okArticles (results : List (Except Unit (List Article))) : List (List Article) :=
  results.filterMap (fun r => match r with
    | Except.ok l => some l
    | Except.error _ => none)

/-- An article has a present, non-empty publish timestamp. -/
def hasTimestamp (a : Article) : Bool :=
  match a.publish_date with
  | none => false
  | some s => !(s == "")

/-- Concrete article with an existing non-null `sentiment` field, used to test
the merge policy. -/
def artPositive : Article :=
  { url := "https://example.com/x", title := "t", content := "c",
    sentiment := some "positive" }

/-- Concrete enrichment result in which every field is null (the LLM returned
a JSON object of nulls, which the schema allows). -/
def llmAllNull : LlmSummary := {}

/-- Concrete article returned by a succeeding scraper. -/
def demoOkArticle : Article :=
  { url := "https://example.com/ok", title := "ok", content := "body" }

/-- Concrete article with a present timestamp, for the sort-order witness. -/
def demoDatedArticle : Article :=
  { url := "https://example.com/dated", title := "dated", content := "body",
    publish_date := some "2025-11-07 00:53:38+00:00" }

/-- First article bearing the duplicated url in a batch. -/
def dupArticleA : Article :=
  { url := "https://example.com/dup", title := "first", content := "c1" }

/-- Second article bearing the same url as `dupArticleA` but different content. -/
def dupArticleA2 : Article :=
  { url := "https://example.com/dup", title := "second", content := "c2" }

/-- Concrete article with a url distinct from the duplicated one. -/
def otherArticle : Article :=
  { url := "https://example.com/other", title := "o", content := "c3" }

/-- First stored article of the two-article backfill store. -/
def demoStoredA : Article :=
  { url := "https://example.com/s1", title := "s1", content := "b1" }

/-- Second stored article of the two-article backfill store. -/
def demoStoredB : Article :=
  { url := "https://example.com/s2", title := "s2", content := "b2" }

/-- Concrete backfill store: N = 2 articles with monotonic identities 1 and 2. -/
def backfillDemoStore : List (Nat × Article) :=
  [(1, demoStoredA), (2, demoStoredB)]

/-- Enrichment adapter whose LLM call fails (or returns a falsy result) on
every article: `_process_one` maps this to None. -/
def failingSummarize : Article → Option LlmFields :=
  fun _ => none

/-- C9: For every Article and every enrichment result merged onto it, the
merged article's url, title, and content fields equal the original article's:
the enrichment merge is additive and never overwrites url, title, or content
(none of these is a key of the `to_article_fields` dict). -/
theorem merge_preserves_url_title_content (a : Article) (llm : LlmSummary) :
    (model_copy_update a (to_article_fields llm)).url = a.url ∧
    (model_copy_update a (to_article_fields llm)).title = a.title ∧
    (model_copy_update a (to_article_fields llm)).content = a.content :=
  ⟨rfl, rfl, rfl⟩

/-- C2 counterexample: the claim "a null/absent field never overwrites the
original article's existing value" is false on the code.  `to_article_fields`
dumps the LlmSummary without excluding None values, so `sentiment` is a key of
the update dict with value None, and `model_copy(update=...)` overwrites the
article's existing `sentiment = "positive"` with None. -/
theorem merge_null_clobbers_existing_field :
    artPositive.sentiment = some "positive" ∧
    (model_copy_update artPositive (to_article_fields llmAllNull)).sentiment = none :=
  ⟨rfl, rfl⟩

/-- C2 amended: the merge overlays the fixed key set of the enrichment dict
unconditionally — every field that is a key of the `to_article_fields` dict
takes the enrichment value, null included, while the fields that are not keys
of the dict (url, title, content, publish_date, authors, summary) keep the
original article's value.  (url, title, content are covered separately.) -/
theorem merge_overlay_field_by_field (a : Article) (llm : LlmSummary) :
    ((model_copy_update a (to_article_fields llm)).publish_date = a.publish_date ∧
     (model_copy_update a (to_article_fields llm)).authors = a.authors ∧
     (model_copy_update a (to_article_fields llm)).summary = a.summary) ∧
    ((model_copy_update a (to_article_fields llm)).summary_short = llm.summary_short ∧
     (model_copy_update a (to_article_fields llm)).summary_bullets = llm.summary_bullets ∧
     (model_copy_update a (to_article_fields llm)).summary_extended = llm.summary_extended ∧
     (model_copy_update a (to_article_fields llm)).event_type = llm.event_type ∧
     (model_copy_update a (to_article_fields llm)).event_type_reasoning = llm.event_type_reasoning ∧
     (model_copy_update a (to_article_fields llm)).importance_score = llm.importance_score ∧
     (model_copy_update a (to_article_fields llm)).importance_reasoning = llm.importance_reasoning ∧
     (model_copy_update a (to_article_fields llm)).sentiment = llm.sentiment ∧
     (model_copy_update a (to_article_fields llm)).sentiment_score = llm.sentiment_score ∧
     (model_copy_update a (to_article_fields llm)).sentiment_reasoning = llm.sentiment_reasoning ∧
     (model_copy_update a (to_article_fields llm)).tickers = llm.tickers ∧
     (model_copy_update a (to_article_fields llm)).primary_ticker = llm.primary_ticker ∧
     (model_copy_update a (to_article_fields llm)).primary_ticker_reasoning = llm.primary_ticker_reasoning ∧
     (model_copy_update a (to_article_fields llm)).sectors = llm.sectors ∧
     (model_copy_update a (to_article_fields llm)).sector_reasoning = llm.sector_reasoning ∧
     (model_copy_update a (to_article_fields llm)).industry = llm.industry ∧
     (model_copy_update a (to_article_fields llm)).industry_reasoning = llm.industry_reasoning ∧
     (model_copy_update a (to_article_fields llm)).keywords = llm.keywords ∧
     (model_copy_update a (to_article_fields llm)).keyword_reasoning = llm.keyword_reasoning ∧
     (model_copy_update a (to_article_fields llm)).entities = llm.entities ∧
     (model_copy_update a (to_article_fields llm)).market_session = llm.market_session ∧
     (model_copy_update a (to_article_fields llm)).market_session_reasoning = llm.market_session_reasoning ∧
     (model_copy_update a (to_article_fields llm)).source = llm.source) ∧
    ((model_copy_update a (to_article_fields llm)).ticker_sentiments = (to_article_fields llm).ticker_sentiments ∧
     (model_copy_update a (to_article_fields llm)).ticker_sentiment_reasoning = (to_article_fields llm).ticker_sentiment_reasoning ∧
     (model_copy_update a (to_article_fields llm)).keyword_map = (to_article_fields llm).keyword_map) :=
  ⟨⟨rfl, rfl, rfl⟩,
   ⟨rfl, rfl, rfl, rfl, rfl, rfl, rfl, rfl, rfl, rfl, rfl, rfl, rfl, rfl, rfl, rfl,
    rfl, rfl, rfl, rfl, rfl, rfl, rfl⟩,
   ⟨rfl, rfl, rfl⟩⟩

/-- Collecting concurrent results appends exactly the successful scrapes, in
completion order. -/
theorem collectAsync_foldl_eq (results : List (Except Unit (List Article))) :
    ∀ acc : List Article,
      results.foldl collectAsyncStep acc = acc ++ (okArticles results).flatten := by
  induction results with
  | nil => intro acc; simp [okArticles]
  | cons r rest ih =>
    intro acc
    cases r with
    | ok l =>
      cases l with
      | nil => simpa [collectAsyncStep, okArticles] using ih acc
      | cons x xs =>
        simp only [List.foldl_cons, collectAsyncStep, List.isEmpty_cons, okArticles,
          List.filterMap_cons]
        rw [ih]
        simp [okArticles, List.append_assoc]
    | error e =>
      simp only [List.foldl_cons, collectAsyncStep, okArticles, List.filterMap_cons]
      exact ih acc

/-- The concurrent collection equals the flattened successes. -/
theorem collectAsync_eq (results : List (Except Unit (List Article))) :
    collectAsync results = (okArticles results).flatten := by
  simpa using collectAsync_foldl_eq results []

/-- C5: In concurrent mode, for every set of adapter outcomes (in any
completion order) of which any subset raise, the fetch coordinator returns
(never raises) a permutation — the final sort — of the union of the articles
of the succeeding adapters. -/
theorem fetch_concurrent_union_of_successes
    (results : List (Except Unit (List Article))) :
    ∃ out, fetch_latest_news_articles true results = Except.ok out ∧
      out.Perm (okArticles results).flatten := by
  refine ⟨sortArticles (collectAsync results), rfl, ?_⟩
  rw [collectAsync_eq]
  exact List.mergeSort_perm _ _

/-- Sequential collection aborts at the first error, regardless of what
follows it. -/
theorem collectSeq_error_after_ok_prefix (e : Unit) :
    ∀ (pre : List (List Article)) (post : List (Except Unit (List Article))),
      collectSeq (pre.map Except.ok ++ Except.error e :: post) = Except.error e := by
  intro pre
  induction pre with
  | nil => intro post; rfl
  | cons l rest ih =>
    intro post
    show (collectSeq (List.map Except.ok rest ++ Except.error e :: post)).map
      (fun tail => l ++ tail) = Except.error e
    rw [ih post]
    rfl

/-- Sequential collection of all-successful adapters concatenates their
articles in adapter order. -/
theorem collectSeq_all_ok (ls : List (List Article)) :
    collectSeq (ls.map Except.ok) = Except.ok ls.flatten := by
  induction ls with
  | nil => rfl
  | cons l rest ih => simp only [List.map_cons, collectSeq, ih, Except.map, List.flatten_cons]

/-- C6 counterexample: the claim "an error raised by one adapter does not
prevent the remaining adapters from running" is false on the code.  In
sequential mode the loop has no exception handling: with a first adapter that
raises and a second that would return an article, the coordinator itself
raises and the second adapter's articles are lost. -/
theorem fetch_sequential_error_propagates :
    fetch_latest_news_articles false [Except.error (), Except.ok [demoOkArticle]] =
      Except.error () :=
  rfl

/-- C6 amended: in sequential mode the adapters run one after another in
deterministic order — with no failures the output is the sorted concatenation
of the adapters' articles in adapter order — but an error raised by one
adapter propagates out of the coordinator and the remaining adapters never
run. -/
theorem fetch_sequential_order_and_abort :
    (∀ (pre : List (List Article)) (post : List (Except Unit (List Article))),
      fetch_latest_news_articles false (pre.map Except.ok ++ Except.error () :: post) =
        Except.error ()) ∧
    (∀ ls : List (List Article),
      fetch_latest_news_articles false (ls.map Except.ok) =
        Except.ok (sortArticles ls.flatten)) := by
  constructor
  · intro pre post
    simp [fetch_latest_news_articles, collectSeq_error_after_ok_prefix () pre post]
  · intro ls
    simp [fetch_latest_news_articles, collectSeq_all_ok ls]

/-- Empty string is the minimum of the lexicographic string order. -/
theorem empty_string_le (s : String) : "" ≤ s := by
  rw [String.le_iff_toList_le]
  exact List.nil_le

/-- A string below the empty string is the empty string. -/
theorem eq_empty_of_le_empty {s : String} (h : s ≤ "") : s = "" :=
  le_antisymm h (empty_string_le s)

/-- The descending comparator is transitive. -/
theorem articleDescLe_trans (a b c : Article) (h1 : articleDescLe a b)
    (h2 : articleDescLe b c) : articleDescLe a c := by
  simp only [articleDescLe, decide_eq_true_eq] at h1 h2 ⊢
  exact le_trans h2 h1

/-- The descending comparator is total. -/
theorem articleDescLe_total (a b : Article) : articleDescLe a b || articleDescLe b a := by
  simp only [articleDescLe, Bool.or_eq_true, decide_eq_true_eq]
  exact le_total _ _

/-- C7: the fetch coordinator's output is sorted by publish-timestamp key
descending, and an article with a missing timestamp never precedes an article
with a present non-empty timestamp (missing timestamps map to the
empty-string low key, the minimum of the order). -/
theorem fetch_output_sorted_desc (results : List (Except Unit (List Article))) :
    ∃ out, fetch_latest_news_articles true results = Except.ok out ∧
      out.Pairwise (fun a b => articleSortKey b ≤ articleSortKey a) ∧
      out.Pairwise (fun a b => a.publish_date = none → hasTimestamp b = false) := by
  refine ⟨sortArticles (collectAsync results), rfl, ?_, ?_⟩
  · have hs := List.sorted_mergeSort
      articleDescLe_trans articleDescLe_total (collectAsync results)
    exact hs.imp (fun h => by simpa [articleDescLe, decide_eq_true_eq] using h)
  · have hs := List.sorted_mergeSort
      articleDescLe_trans articleDescLe_total (collectAsync results)
    refine hs.imp (fun {a b} h hnone => ?_)
    have hle : articleSortKey b ≤ articleSortKey a := by
      simpa [articleDescLe, decide_eq_true_eq] using h
    have hka : articleSortKey a = "" := by
      simp [articleSortKey, hnone]
    rw [hka] at hle
    have hkb : articleSortKey b = "" := eq_empty_of_le_empty hle
    cases hb : b.publish_date with
    | none => simp [hasTimestamp, hb]
    | some s =>
      have : s = "" := by simpa [articleSortKey, hb] using hkb
      simp [hasTimestamp, hb, this]

/-- Counter bookkeeping of one page's enrichment fold, for any starting
accumulator. -/
theorem process_page_foldl_spec (s : Article → Option LlmFields)
    (batch : List Article) : ∀ (l : List Article) (t : Totals),
    (batch.foldl (process_page_step s) (l, t)).2.processed = t.processed + batch.length ∧
    (batch.foldl (process_page_step s) (l, t)).2.failed =
      t.failed + batch.countP (fun a => (process_one s a).isNone) ∧
    (batch.foldl (process_page_step s) (l, t)).2.updated =
      t.updated + batch.countP (fun a => (process_one s a).isSome) ∧
    (batch.foldl (process_page_step s) (l, t)).1.length =
      l.length + batch.countP (fun a => (process_one s a).isSome) := by
  induction batch with
  | nil => intro l t; simp
  | cons a rest ih =>
    intro l t
    cases h : process_one s a with
    | none =>
      have ihn := ih l { t with processed := t.processed + 1, failed := t.failed + 1 }
      simp only [List.foldl_cons, process_page_step, h, List.countP_cons,
        Option.isNone_none, Option.isSome_none, List.length_cons] at ihn ⊢
      simp at ihn ⊢
      omega
    | some upd =>
      have ihs := ih (l ++ [upd]) { t with processed := t.processed + 1, updated := t.updated + 1 }
      simp only [List.foldl_cons, process_page_step, h, List.countP_cons,
        Option.isNone_some, Option.isSome_some, List.length_cons,
        List.length_append, List.length_nil] at ihs ⊢
      simp at ihs ⊢
      omega

/-- Successes and failures of a page partition it. -/
theorem countP_isSome_add_isNone (s : Article → Option LlmFields)
    (batch : List Article) :
    batch.countP (fun a => (process_one s a).isSome) +
      batch.countP (fun a => (process_one s a).isNone) = batch.length := by
  induction batch with
  | nil => simp
  | cons a rest ih =>
    cases h : process_one s a <;> simp [List.countP_cons, h] <;> omega

/-- C8: for every batch of n articles of which enrichment fails for exactly f
(the articles on which `_process_one` yields None), the page's output batch
has n - f articles and the counters read processed = n, updated = n - f,
failed = f. -/
theorem enrichment_page_counters (s : Article → Option LlmFields)
    (batch : List Article) :
    (process_page s batch {}).2.processed = batch.length ∧
    (process_page s batch {}).2.failed =
      batch.countP (fun a => (process_one s a).isNone) ∧
    (process_page s batch {}).2.updated =
      batch.length - batch.countP (fun a => (process_one s a).isNone) ∧
    (process_page s batch {}).1.length =
      batch.length - batch.countP (fun a => (process_one s a).isNone) := by
  have h := process_page_foldl_spec s batch [] {}
  have hc := countP_isSome_add_isNone s batch
  simp only [process_page]
  simp only [show (({} : Totals)).processed = 0 from rfl,
    show (({} : Totals)).updated = 0 from rfl,
    show (({} : Totals)).failed = 0 from rfl, List.length_nil, Nat.zero_add] at h
  refine ⟨?_, ?_, ?_, ?_⟩ <;> omega

/-- Lookup succeeds exactly when the key is among the stored keys. -/
theorem lookup_isSome_mem_keys {β : Type} (l : List (String × β)) (k : String) :
    (l.lookup k).isSome ↔ k ∈ l.map Prod.fst := by
  rw [List.lookup_isSome_iff]
  constructor
  · rintro ⟨p, hp, he⟩
    exact List.mem_map.mpr ⟨p, hp, (beq_iff_eq.mp he).symm⟩
  · intro hk
    obtain ⟨p, hp, he⟩ := List.mem_map.mp hk
    exact ⟨p, hp, beq_iff_eq.mpr he.symm⟩

/-- A url is a key of the batch dict exactly when it was a key of the
accumulator or is the url of one of the articles. -/
theorem build_batch_foldl_mem (now : Nat) (rid : Option Nat) (articles : List Article) :
    ∀ (acc : List (String × StoredDoc)) (u : String),
      (u ∈ (articles.foldl (build_batch_step now rid) acc).map Prod.fst ↔
        u ∈ acc.map Prod.fst ∨ u ∈ articles.map Article.url) := by
  induction articles with
  | nil => intro acc u; simp
  | cons a rest ih =>
    intro acc u
    simp only [List.foldl_cons, build_batch_step]
    by_cases h : (acc.lookup a.url).isSome
    · rw [if_pos h, ih acc u]
      have hmem : a.url ∈ acc.map Prod.fst := (lookup_isSome_mem_keys acc a.url).mp h
      simp only [List.map_cons, List.mem_cons]
      constructor
      · rintro (hu | hu)
        · exact Or.inl hu
        · exact Or.inr (Or.inr hu)
      · rintro (hu | rfl | hu)
        · exact Or.inl hu
        · exact Or.inl hmem
        · exact Or.inr hu
    · rw [if_neg h, ih _ u]
      simp only [List.map_append, List.map_cons, List.map_nil, List.mem_append,
        List.mem_cons, List.mem_singleton, List.not_mem_nil, or_false]
      tauto

/-- The batch dict built by `insert_many_articles` has no duplicate url keys. -/
theorem build_batch_foldl_nodup (now : Nat) (rid : Option Nat) (articles : List Article) :
    ∀ acc : List (String × StoredDoc), (acc.map Prod.fst).Nodup →
      ((articles.foldl (build_batch_step now rid) acc).map Prod.fst).Nodup := by
  induction articles with
  | nil => intro acc h; simpa using h
  | cons a rest ih =>
    intro acc hacc
    simp only [List.foldl_cons, build_batch_step]
    by_cases h : (acc.lookup a.url).isSome
    · rw [if_pos h]
      exact ih acc hacc
    · rw [if_neg h]
      apply ih
      have hnotmem : a.url ∉ acc.map Prod.fst :=
        fun hm => h ((lookup_isSome_mem_keys acc a.url).mpr hm)
      simp [List.nodup_append, hacc, hnotmem]

/-- The number of unique urls of the batch equals the number of distinct urls
among the submitted articles. -/
theorem build_batch_length_eq_dedup (articles : List Article) (now : Nat)
    (rid : Option Nat) :
    (build_batch articles now rid).length = (articles.map Article.url).dedup.length := by
  have hkeys_nodup : ((build_batch articles now rid).map Prod.fst).Nodup :=
    build_batch_foldl_nodup now rid articles [] (by simp)
  have hmem : ∀ u, u ∈ (build_batch articles now rid).map Prod.fst ↔
      u ∈ articles.map Article.url := by
    intro u
    have hx := build_batch_foldl_mem now rid articles [] u
    simpa [build_batch] using hx
  have hperm : ((build_batch articles now rid).map Prod.fst).Perm
      (articles.map Article.url).dedup := by
    rw [List.perm_ext_iff_of_nodup hkeys_nodup (List.nodup_dedup _)]
    intro u
    rw [hmem u, List.mem_dedup]
  calc (build_batch articles now rid).length
      = ((build_batch articles now rid).map Prod.fst).length := (List.length_map _ _).symm
    _ = (articles.map Article.url).dedup.length := hperm.length_eq

/-- Each bulk operation increments the upserted count by at most one. -/
theorem applyOp_foldl_count_le (batch : List (String × StoredDoc)) :
    ∀ acc : BulkAcc,
      (batch.foldl applyOp acc).upserted_count ≤ acc.upserted_count + batch.length := by
  induction batch with
  | nil => intro acc; simp
  | cons op rest ih =>
    intro acc
    simp only [List.foldl_cons, applyOp, List.length_cons]
    by_cases h : (acc.db.docs.lookup op.1).isSome
    · rw [if_pos h]
      have := ih acc
      omega
    · rw [if_neg h]
      have := ih
        { db := { docs := acc.db.docs ++ [(op.1, op.2)], next_id := acc.db.next_id + 1 }
          upserted_count := acc.upserted_count + 1
          inserted_ids := acc.inserted_ids ++ [(op.1, acc.db.next_id)] }
      dsimp only at this
      omega

/-- The bulk write inserts a document only when its url is absent, so a store
with unique urls keeps unique urls. -/
theorem applyOp_foldl_nodup (batch : List (String × StoredDoc)) :
    ∀ acc : BulkAcc, ((acc.db.docs.map Prod.fst).Nodup) →
      (((batch.foldl applyOp acc).db.docs.map Prod.fst).Nodup) := by
  induction batch with
  | nil => intro acc h; simpa using h
  | cons op rest ih =>
    intro acc hacc
    simp only [List.foldl_cons, applyOp]
    by_cases h : (acc.db.docs.lookup op.1).isSome
    · rw [if_pos h]
      exact ih acc hacc
    · rw [if_neg h]
      apply ih
      have hnotmem : op.1 ∉ acc.db.docs.map Prod.fst :=
        fun hm => h ((lookup_isSome_mem_keys acc.db.docs op.1).mpr hm)
      simp [List.nodup_append, hacc, hnotmem]

/-- C3: for every batch of Articles, duplicates included, `insert_many_articles`
inserts each unique url at most once (a store whose urls are unique stays
unique), and the returned counters satisfy inserted_count + existing_count =
total_unique_urls, where total_unique_urls is the number of distinct urls in
the batch. -/
theorem insert_many_dedup_counts (db : DbState) (articles : List Article)
    (now : Nat) (rid : Option Nat) (h : (db.docs.map Prod.fst).Nodup) :
    ((insert_many_articles db articles now rid).2.inserted_count +
        (insert_many_articles db articles now rid).2.existing_count =
      (insert_many_articles db articles now rid).2.total_unique_urls) ∧
    ((insert_many_articles db articles now rid).2.total_unique_urls =
      (articles.map Article.url).dedup.length) ∧
    (((insert_many_articles db articles now rid).1.docs.map Prod.fst).Nodup) := by
  have hle := applyOp_foldl_count_le (build_batch articles now rid)
    { db := db, upserted_count := 0, inserted_ids := [] }
  have hnd := applyOp_foldl_nodup (build_batch articles now rid)
    { db := db, upserted_count := 0, inserted_ids := [] } h
  have hlen := build_batch_length_eq_dedup articles now rid
  simp only [insert_many_articles]
  refine ⟨?_, ?_, ?_⟩
  · simp only [show ({ db := db, upserted_count := 0, inserted_ids := [] } : BulkAcc).upserted_count = 0
      from rfl, Nat.zero_add] at hle
    omega
  · exact hlen
  · exact hnd

/-- Inserting a single article whose url is absent appends its document with a
fresh id and reports one insert, zero existing. -/
theorem insert_single_absent (db : DbState) (a : Article) (n : Nat) (r : Option Nat)
    (h : db.docs.lookup a.url = none) :
    insert_many_articles db [a] n r =
      ({ docs := db.docs ++ [(a.url, mkDoc a n r)], next_id := db.next_id + 1 },
       { inserted_count := 1, existing_count := 0, total_unique_urls := 1,
         inserted_ids := [(a.url, db.next_id)] }) := by
  simp [insert_many_articles, build_batch, build_batch_step, applyOp, h]

/-- Inserting a single article whose url is already stored leaves the store
untouched and reports zero inserts, one existing. -/
theorem insert_single_present (db : DbState) (a : Article) (n : Nat) (r : Option Nat)
    (v : StoredDoc) (h : db.docs.lookup a.url = some v) :
    insert_many_articles db [a] n r =
      (db, { inserted_count := 0, existing_count := 1, total_unique_urls := 1,
             inserted_ids := [] }) := by
  simp [insert_many_articles, build_batch, build_batch_step, applyOp, h]

/-- C4: calling the insert-new-only operation twice with an identical
single-Article batch is idempotent on the store: the first call reports
inserted_count = 1 and existing_count = 0, the second call reports
inserted_count = 0 and existing_count = 1, and the second call leaves the
store exactly as the first call left it (the stored document is not
overwritten, even though the second call runs at a different time and run
id). -/
theorem insert_twice_idempotent (db : DbState) (a : Article) (n1 n2 : Nat)
    (r1 r2 : Option Nat) (h : db.docs.lookup a.url = none) :
    ((insert_many_articles db [a] n1 r1).2.inserted_count = 1) ∧
    ((insert_many_articles db [a] n1 r1).2.existing_count = 0) ∧
    ((insert_many_articles (insert_many_articles db [a] n1 r1).1 [a] n2 r2).2.inserted_count = 0) ∧
    ((insert_many_articles (insert_many_articles db [a] n1 r1).1 [a] n2 r2).2.existing_count = 1) ∧
    ((insert_many_articles (insert_many_articles db [a] n1 r1).1 [a] n2 r2).1 =
      (insert_many_articles db [a] n1 r1).1) := by
  have h1 := insert_single_absent db a n1 r1 h
  have hl2 : ((insert_many_articles db [a] n1 r1).1).docs.lookup a.url =
      some (mkDoc a n1 r1) := by
    rw [h1]
    dsimp only
    rw [List.lookup_append, h]
    simp
  have h2 := insert_single_present (insert_many_articles db [a] n1 r1).1 a n2 r2 _ hl2
  refine ⟨?_, ?_, ?_, ?_, ?_⟩
  · rw [h1]
  · rw [h1]
  · rw [h2]
  · rw [h2]
  · rw [h2]

/-- C4 witness: starting from the empty store, two identical single-article
calls (at different timestamps and run ids) report (1, 0) then (0, 1) and the
second call does not change the store. -/
theorem insert_twice_idempotent_witness :
    ((insert_many_articles { docs := [], next_id := 0 } [otherArticle] 3 none).2.inserted_count = 1) ∧
    ((insert_many_articles { docs := [], next_id := 0 } [otherArticle] 3 none).2.existing_count = 0) ∧
    ((insert_many_articles (insert_many_articles { docs := [], next_id := 0 } [otherArticle] 3 none).1
        [otherArticle] 9 (some 5)).2.inserted_count = 0) ∧
    ((insert_many_articles (insert_many_articles { docs := [], next_id := 0 } [otherArticle] 3 none).1
        [otherArticle] 9 (some 5)).2.existing_count = 1) ∧
    ((insert_many_articles (insert_many_articles { docs := [], next_id := 0 } [otherArticle] 3 none).1
        [otherArticle] 9 (some 5)).1 =
      (insert_many_articles { docs := [], next_id := 0 } [otherArticle] 3 none).1) :=
  insert_twice_idempotent { docs := [], next_id := 0 } otherArticle 3 9 none (some 5) rfl

/-- C3 witness: a three-article batch with a duplicated url, inserted into the
empty store, satisfies the counter identity with two unique urls and leaves a
duplicate-free store. -/
theorem insert_many_dedup_counts_witness :
    ((insert_many_articles { docs := [], next_id := 0 }
          [dupArticleA, dupArticleA2, otherArticle] 7 none).2.inserted_count +
        (insert_many_articles { docs := [], next_id := 0 }
          [dupArticleA, dupArticleA2, otherArticle] 7 none).2.existing_count =
      (insert_many_articles { docs := [], next_id := 0 }
          [dupArticleA, dupArticleA2, otherArticle] 7 none).2.total_unique_urls) ∧
    ((insert_many_articles { docs := [], next_id := 0 }
          [dupArticleA, dupArticleA2, otherArticle] 7 none).2.total_unique_urls =
      ([dupArticleA, dupArticleA2, otherArticle].map Article.url).dedup.length) ∧
    (((insert_many_articles { docs := [], next_id := 0 }
          [dupArticleA, dupArticleA2, otherArticle] 7 none).1.docs.map Prod.fst).Nodup) :=
  insert_many_dedup_counts { docs := [], next_id := 0 }
    [dupArticleA, dupArticleA2, otherArticle] 7 none (by simp)

/-- Lookup in the batch dict resolves to the document of the first submitted
article bearing the looked-up url, whatever the accumulator already holds. -/
theorem build_batch_foldl_lookup (now : Nat) (rid : Option Nat) (u : String) :
    ∀ (articles : List Article) (acc : List (String × StoredDoc)),
      (articles.foldl (build_batch_step now rid) acc).lookup u =
        (acc.lookup u).or
          ((articles.find? (fun x => x.url == u)).map (fun x => mkDoc x now rid)) := by
  intro articles
  induction articles with
  | nil => intro acc; simp
  | cons a rest ih =>
    intro acc
    simp only [List.foldl_cons, build_batch_step]
    by_cases h : (acc.lookup a.url).isSome
    · rw [if_pos h, ih acc]
      by_cases he : a.url = u
      · subst he
        obtain ⟨v, hv⟩ := Option.isSome_iff_exists.mp h
        rw [List.find?_cons_of_pos _ (by simp)]
        simp [hv]
      · rw [List.find?_cons_of_neg _ (by simp [he])]
    · rw [if_neg h, ih _, List.lookup_append]
      by_cases he : a.url = u
      · subst he
        have hnone : acc.lookup a.url = none := by
          cases hx : acc.lookup a.url with
          | none => rfl
          | some v => exact absurd (by simp [hx]) h
        rw [List.find?_cons_of_pos _ (by simp)]
        simp [hnone]
      · rw [List.find?_cons_of_neg _ (by simp [he])]
        have hbeq : (u == a.url) = false := by
          simp
          exact Ne.symm he
        have hsingle : ([(a.url, mkDoc a now rid)] : List (String × StoredDoc)).lookup u = none := by
          simp [List.lookup_cons, hbeq]
        rw [hsingle, Option.or_none]

/-- C10: when the input batch contains several Articles with the same url, the
document submitted to the store for that url is built from the first Article
bearing that url in the list; later duplicates never reach the batch dict. -/
theorem insert_batch_first_url_wins (articles : List Article) (now : Nat)
    (rid : Option Nat) (u : String) (a : Article)
    (h : articles.find? (fun x => x.url == u) = some a) :
    (build_batch articles now rid).lookup u = some (mkDoc a now rid) := by
  rw [build_batch, build_batch_foldl_lookup now rid u articles []]
  simp [h]

/-- C10 witness: with two articles sharing a url but differing in content, the
batch dict maps the url to the first article's document. -/
theorem insert_batch_first_url_wins_witness :
    (build_batch [dupArticleA, dupArticleA2] 7 none).lookup "https://example.com/dup" =
      some (mkDoc dupArticleA 7 none) :=
  insert_batch_first_url_wins [dupArticleA, dupArticleA2] 7 none
    "https://example.com/dup" dupArticleA rfl

/-- First page read of the demo store with page size 1 and a None cursor:
the first stored article, with its identity stripped by `Article(**doc)`. -/
theorem demo_store_first_page :
    get_articles_batch backfillDemoStore 1 none = [demoStoredA] := by
  have hsorted : backfillDemoStore.Pairwise
      (fun x y => (decide (x.1 ≤ y.1)) = true) := by
    simp [backfillDemoStore]
  show ((backfillDemoStore.mergeSort (fun x y => decide (x.1 ≤ y.1))).take 1).map
      (fun d => d.2) = [demoStoredA]
  rw [List.mergeSort_of_sorted hsorted]
  rfl

/-- The backfill loop over the demo store never exits, whatever fuel and
running totals it is given: the cursor stays None, so every iteration re-reads
the same non-empty first page. -/
theorem backfill_demo_loop_stuck :
    ∀ (fuel : Nat) (t : Totals),
      backfill_loop failingSummarize 1 none fuel
        { store := backfillDemoStore, totals := t, last_id := none } = none := by
  intro fuel
  induction fuel with
  | zero => intro t; rfl
  | succ n ih =>
    intro t
    simp only [backfill_loop]
    simp [capReached, demo_store_first_page, process_page, process_page_step,
      process_one, failingSummarize, advance_cursor]
    exact ih _

/-- C1 (evaluation of the code at the failing input): over a store of N = 2
articles with page size p = 1 and no total-item cap, backfill_articles does
not terminate in ceil(N/p) = 2 page reads — it never terminates at all.
`Article` has no `id`/`_id` attribute, so the cursor never advances past the
first page and the same article is re-read on every iteration, contradicting
the claim (and the code's own "Advance cursor" comment). -/
theorem backfill_never_terminates_demo (fuel : Nat) :
    backfill_articles failingSummarize backfillDemoStore 1 none fuel = none :=
  backfill_demo_loop_stuck fuel {}
